import Mathlib

/-!
Verification of the server details block (`ServerDetailsBlock.tsx`).

The component keeps one piece of state, the latest stats snapshot, and
derives all displayed text from that snapshot together with the configured
resource limits, the lifecycle status string and the allocation list.
The definitions below are a shallow embedding of that code:

* JavaScript numbers are modelled as rationals (`ℚ`);
* a value that may be `undefined` is an `Option`;
* the inbound stats handler is modelled over the result of `JSON.parse`
  (`none` when parsing threw), and a thrown `TypeError` is `Except.error`;
* helpers imported from modules outside the embedded file
  (`bytesToString`, `mbToBytes`, `ip`, `capitalize`, `UptimeDuration`)
  are modelled from the specification, as marked on each of them.
-/

/-- Modelled from the spec: fixed two-decimal formatting of a number
(the `toFixed(2)` calls); the spec only fixes "two decimal places". -/
def toFixed2 (q : ℚ) : String :=
  let sign := if q < 0 then "-" else ""
  let n : ℕ := ((|q| * 100) + 1 / 2).floor.toNat
  sign ++ toString (n / 100) ++ "." ++
    (if n % 100 < 10 then "0" ++ toString (n % 100) else toString (n % 100))

/-- Modelled from the spec: `bytesToString` from the formatters module
outside `src/` renders a byte count with binary-prefix units (Bytes, KiB,
MiB, GiB) at fixed two-decimal precision. -/
def bytesToString (bytes : ℚ) : String :=
  if bytes < 1024 then toFixed2 bytes ++ " Bytes"
  else if bytes < 1024 * 1024 then toFixed2 (bytes / 1024) ++ " KiB"
  else if bytes < 1024 * 1024 * 1024 then toFixed2 (bytes / (1024 * 1024)) ++ " MiB"
  else toFixed2 (bytes / (1024 * 1024 * 1024)) ++ " GiB"

/-- Modelled from the spec: `mbToBytes` from the formatters module outside
`src/` converts a megabyte-denominated limit to bytes; the spec allows the
binary convention (1 MB = 1048576 bytes) as long as it is applied
consistently, which this development does. -/
def mbToBytes (megabytes : ℕ) : ℚ := (megabytes : ℚ) * 1048576

/-- Modelled from the spec: the `ip` helper outside `src/` renders the raw
IP string. -/
def ip (address : String) : String := address

/-- Modelled from the spec: `capitalize` from the string utilities outside
`src/` uppercases the first character of the word. -/
def capitalize (s : String) : String :=
  match s.data with
  | [] => ""
  | c :: cs => String.mk (Char.toUpper c :: cs)

/-- Modelled from the spec: the external `UptimeDuration` component renders
a formatted duration from a value in seconds. -/
def uptimeDuration (seconds : ℚ) : String :=
  let t : ℕ := seconds.floor.toNat
  toString (t / 3600) ++ "h " ++ toString (t % 3600 / 60) ++ "m " ++ toString (t % 60) ++ "s"

/-- The component state `stats` (`type Stats = Record<'memory' | 'cpu' |
'disk' | 'uptime', number>`), at its declared type. -/
structure Stats where
  memory : ℚ
  cpu : ℚ
  disk : ℚ
  uptime : ℚ

/-- `useState<Stats>({ memory: 0, cpu: 0, disk: 0, uptime: 0 })`. -/
def initialStats : Stats := { memory := 0, cpu := 0, disk := 0, uptime := 0 }

/-- One entry of `state.server.data.allocations`. -/
structure Allocation where
  ip : String
  port : ℕ
  «alias» : Option String
  isDefault : Bool
  deriving DecidableEq

/-- The allocation addrress text: `allocations.find(a => a.isDefault)`,
then `` `${match.alias || ip(match.ip)}:${match.port}` ``, or `'n/a'` when
no allocation is marked default. `aliasOrIp` is the falsy-alias selection
`match.alias || ip(match.ip)`. -/
def aliasOrIp (m : Allocation) : String :=
  match m.«alias» with
  | some a => if a = "" then ip m.ip else a
  | none => ip m.ip

/-- Address text derived from the allocation list (the `allocation`
memoised value in the component). -/
def allocation (allocations : List Allocation) : String :=
  match allocations.find? (fun a => a.isDefault) with
  | none => "n/a"
  | some m => aliasOrIp m ++ ":" ++ toString m.port

/-- `state.server.data.limits`: configured caps, `none` for absent; a
present `0` also means "no limit" through the truthiness checks below. -/
structure ResourceLimits where
  cpu : Option ℕ
  memory : Option ℕ
  disk : Option ℕ

/-- The memoised `textLimits` triple: each field is `null` (here `none`)
unless the corresponding limit is truthy (present and nonzero). -/
structure TextLimits where
  cpu : Option String
  memory : Option String
  disk : Option String

/-- `textLimits = { cpu: limits?.cpu ? `${limits.cpu}%` : null, memory:
limits?.memory ? bytesToString(mbToBytes(limits.memory)) : null, disk:
limits?.disk ? bytesToString(mbToBytes(limits.disk)) : null }`. -/
def textLimits (limits : ResourceLimits) : TextLimits :=
  { cpu := match limits.cpu with
      | some n => if n = 0 then none else some (toString n ++ "%")
      | none => none
    memory := match limits.memory with
      | some n => if n = 0 then none else some (bytesToString (mbToBytes n))
      | none => none
    disk := match limits.disk with
      | some n => if n = 0 then none else some (bytesToString (mbToBytes n))
      | none => none }

/-- The limit part rendered by the `Limit` component: `limit || <>&infin;</>`,
the infinity placeholder when the limit string is `null` or falsy. -/
def renderedLimit (limit : Option String) : String :=
  match limit with
  | none => "∞"
  | some s => if s = "" then "∞" else s

/-- The `Limit` component's full rendered text: the children followed by
`/ limit-or-infinity`. -/
def Limit (limit : Option String) (children : String) : String :=
  children ++ " / " ++ renderedLimit limit

/-- The uptime stat block body: `status === 'starting' || status ===
'stopping' ? capitalize(status) : stats.uptime > 0 ? <UptimeDuration
uptime={stats.uptime / 1000} /> : 'Offline'`. -/
def uptimeText (status : String) (stats : Stats) : String :=
  if status = "starting" ∨ status = "stopping" then capitalize status
  else if 0 < stats.uptime then uptimeDuration (stats.uptime / 1000)
  else "Offline"

/-- The CPU stat block body: `'Offline'` when status is `'offline'`, else
the `Limit`-wrapped `stats.cpu.toFixed(2)%`. -/
def cpuText (status : String) (stats : Stats) (tl : TextLimits) : String :=
  if status = "offline" then "Offline"
  else Limit tl.cpu (toFixed2 stats.cpu ++ "%")

/-- The memory stat block body: `'Offline'` when status is `'offline'`,
else the `Limit`-wrapped `bytesToString(stats.memory)`. -/
def memoryText (status : String) (stats : Stats) (tl : TextLimits) : String :=
  if status = "offline" then "Offline"
  else Limit tl.memory (bytesToString stats.memory)

/-- The disk stat block body: `bytesToString(stats.disk)`, with no status
branch and no `Limit` wrapper. -/
def diskText (stats : Stats) : String :=
  bytesToString stats.disk

/-- The CPU block description: configured cap sentence when `limits.cpu`
is truthy, else the no-limit sentence. -/
def cpuDescription (limits : ResourceLimits) : String :=
  match limits.cpu with
  | some n =>
      if n = 0 then "No CPU limit has been configured for this server."
      else "This server is allowed to use up to " ++ toString n ++
        "% of the host\x27s available CPU resources."
  | none => "No CPU limit has been configured for this server."

/-- The memory block description. -/
def memoryDescription (limits : ResourceLimits) : String :=
  match limits.memory with
  | some n =>
      if n = 0 then "No memory limit has been configured for this server."
      else "This server is allowed to use up to " ++
        bytesToString (mbToBytes n) ++ " of memory."
  | none => "No memory limit has been configured for this server."

/-- The disk block description. -/
def diskDescription (limits : ResourceLimits) : String :=
  match limits.disk with
  | some n =>
      if n = 0 then "No disk space limit has been configured for this server."
      else "This server is allowed to use up to " ++
        bytesToString (mbToBytes n) ++ " of disk space."
  | none => "No disk space limit has been configured for this server."

/-- Everything the component displays, as text. -/
structure DisplayModel where
  uptime : String
  address : String
  cpu : String
  memory : String
  disk : String
  cpuNote : String
  memoryNote : String
  diskNote : String

/-- The full rendered view as a function of the four inputs: snapshot,
limits, lifecycle status and allocation list. -/
def displayModel (stats : Stats) (limits : ResourceLimits) (status : String)
    (allocations : List Allocation) : DisplayModel :=
  { uptime := uptimeText status stats
    address := allocation allocations
    cpu := cpuText status stats (textLimits limits)
    memory := memoryText status stats (textLimits limits)
    disk := diskText stats
    cpuNote := cpuDescription limits
    memoryNote := memoryDescription limits
    diskNote := diskDescription limits }

/-- A JavaScript value as produced by `JSON.parse`. -/
inductive JsValue where
  | null : JsValue
  | bool : Bool → JsValue
  | num : ℚ → JsValue
  | str : String → JsValue
  | arr : List JsValue → JsValue
  | obj : List (String × JsValue) → JsValue

/-- A JavaScript expression result that may also be `undefined` (`none`). -/
abbrev JsAny := Option JsValue

/-- JavaScript truthiness of a defined value. -/
def truthy : JsValue → Bool
  | JsValue.null => false
  | JsValue.bool b => b
  | JsValue.num q => decide (q ≠ 0)
  | JsValue.str s => decide (s ≠ "")
  | JsValue.arr _ => true
  | JsValue.obj _ => true

/-- JavaScript `a || b` on a possibly-undefined left operand. -/
def jsOr (a : JsAny) (b : JsValue) : JsValue :=
  match a with
  | none => b
  | some v => if truthy v then v else b

/-- Pure member lookup: an object's field, `undefined` on a non-object or
a missing field (`JSON.parse` never yields duplicate keys, so first match
is the field). -/
def member (v : JsValue) (k : String) : JsAny :=
  match v with
  | JsValue.obj fields => (fields.find? (fun f => f.1 == k)).map (fun f => f.2)
  | _ => none

/-- JavaScript member access `v.k`: a `TypeError` is thrown on `null`,
otherwise the member (possibly `undefined`). -/
def getField (v : JsValue) (k : String) : Except Unit JsAny :=
  match v with
  | JsValue.null => Except.error ()
  | _ => Except.ok (member v k)

/-- The state cell as it can actually be left by the handler: each field is
whatever JavaScript value (or `undefined`) the payload's member access
produced, the declared `number` type notwithstanding. -/
structure StoredStats where
  memory : JsAny
  cpu : JsAny
  disk : JsAny
  uptime : JsAny

/-- The initial state `{ memory: 0, cpu: 0, disk: 0, uptime: 0 }` at the
stored-value level. -/
def initialStored : StoredStats :=
  { memory := some (JsValue.num 0), cpu := some (JsValue.num 0)
    disk := some (JsValue.num 0), uptime := some (JsValue.num 0) }

/-- The `SocketEvent.STATS` handler. The argument is the result of
`JSON.parse(data)`, `none` when parsing threw (the `catch` returns, keeping
the previous state). On success it calls `setStats` with the four member
accesses, `uptime` going through `stats.uptime || 0`; a `TypeError` from a
`null` payload propagates (`Except.error`), leaving the state unchanged
but uncaught. -/
def statsEventHandler (parsed : Option JsValue) (prev : StoredStats) :
    Except Unit StoredStats :=
  match parsed with
  | none => Except.ok prev
  | some v =>
      match getField v "memory_bytes" with
      | Except.error e => Except.error e
      | Except.ok m =>
        match getField v "cpu_absolute" with
        | Except.error e => Except.error e
        | Except.ok c =>
          match getField v "disk_bytes" with
          | Except.error e => Except.error e
          | Except.ok d =>
            match getField v "uptime" with
            | Except.error e => Except.error e
            | Except.ok u =>
              Except.ok { memory := m, cpu := c, disk := d
                          uptime := some (jsOr u (JsValue.num 0)) }

/-- The wire shape `{ memory_bytes: number, cpu_absolute: number,
disk_bytes: number, uptime?: number }`. -/
def isNumJs : JsAny → Bool
  | some (JsValue.num _) => true
  | _ => false

/-- Decides whether a parsed value has the documented wire shape. -/
def isWireShape (v : JsValue) : Bool :=
  match v with
  | JsValue.obj _ =>
      isNumJs (member v "memory_bytes") && isNumJs (member v "cpu_absolute") &&
      isNumJs (member v "disk_bytes") &&
      (match member v "uptime" with
       | none => true
       | some (JsValue.num _) => true
       | _ => false)
  | _ => false

/-- One render-time value of the `useEffect` dependency pair
`[instance, connected]`: whether the socket is connected, and the identity
of the socket instance (`none` before one is established). -/
abbrev DepState := Bool × Option ℕ

/-- `connected && instance`: the guard `if (!connected || !instance) return`. -/
def isConn (s : DepState) : Bool := s.1 && s.2.isSome

/-- React effect semantics with dependency array `[instance, connected]`:
the effect body runs on mount and whenever the dependency pair changed
since the previous render. -/
def effectRuns (prev : Option DepState) (s : DepState) : Bool :=
  match prev with
  | none => true
  | some p => decide (p ≠ s)

/-- Whether the previous render (if any) was in the connected state. -/
def prevConn (prev : Option DepState) : Bool :=
  match prev with
  | none => false
  | some p => isConn p

/-- Per render, whether one `SEND_STATS` request goes out: the effect ran
and the guard passed. -/
def sendFlags (prev : Option DepState) : List DepState → List Bool
  | [] => []
  | s :: rest => (effectRuns prev s && isConn s) :: sendFlags (some s) rest

/-- Per render, whether this render is a transition into the connected
state (connected now, not connected before; before the first render the
transport counts as not connected). -/
def connectFlags (prev : Option DepState) : List DepState → List Bool
  | [] => []
  | s :: rest => (!prevConn prev && isConn s) :: connectFlags (some s) rest

/-- The socket instance only changes identity across a disconnection: two
consecutive connected renders carry the same dependency pair. Instance
churn without a connectivity transition is outside the claim's histories. -/
def stableInstance (prev : Option DepState) : List DepState → Bool
  | [] => true
  | s :: rest =>
      (match prev with
       | none => true
       | some p => !(isConn p && isConn s) || decide (p = s)) && stableInstance (some s) rest

/-! ## Helper lemmas -/

theorem append_data (a b : String) : (a ++ b).data = a.data ++ b.data := rfl

theorem append_ne_empty (a b : String) (h : b.data ≠ []) : a ++ b ≠ "" := by
  intro he
  have hd : a.data ++ b.data = [] := congrArg String.data he
  exact h (List.append_eq_nil.mp hd).2

theorem renderedLimit_of_ne (s : String) (h : s ≠ "") : renderedLimit (some s) = s := by
  simp [renderedLimit, h]

theorem bytesToString_ne_empty (q : ℚ) : bytesToString q ≠ "" := by
  unfold bytesToString
  split
  · exact append_ne_empty _ _ (by decide)
  split
  · exact append_ne_empty _ _ (by decide)
  split
  · exact append_ne_empty _ _ (by decide)
  · exact append_ne_empty _ _ (by decide)

theorem aliasOrIp_port_ne_na (m : Allocation) :
    aliasOrIp m ++ ":" ++ toString m.port ≠ "n/a" := by
  intro he
  have hmem : ':' ∈ (aliasOrIp m ++ ":" ++ toString m.port).data := by
    rw [append_data, append_data]
    simp
  rw [he] at hmem
  exact absurd hmem (by decide)

/-! ## Claim theorems -/

/-- C1: for every lifecycle status and every snapshot, the uptime text is
the capitalized status word when the status is `starting` or `stopping`
(whatever the uptime value), otherwise a formatted duration of the uptime
converted from milliseconds to seconds when the uptime is positive, and
otherwise the literal `Offline`. -/
theorem uptime_lifecycle_text (status : String) (s : Stats) :
    ((status = "starting" ∨ status = "stopping") → uptimeText status s = capitalize status) ∧
    (status ≠ "starting" → status ≠ "stopping" → 0 < s.uptime →
      uptimeText status s = uptimeDuration (s.uptime / 1000)) ∧
    (status ≠ "starting" → status ≠ "stopping" → ¬ 0 < s.uptime →
      uptimeText status s = "Offline") := by
  refine ⟨fun h => ?_, fun h1 h2 h3 => ?_, fun h1 h2 h3 => ?_⟩
  · rcases h with h | h <;> simp [uptimeText, h]
  · simp only [uptimeText]
    rw [if_neg (not_or.mpr ⟨h1, h2⟩), if_pos h3]
  · simp only [uptimeText]
    rw [if_neg (not_or.mpr ⟨h1, h2⟩), if_neg h3]

/-- Witness for `uptime_lifecycle_text` at concrete inputs. -/
theorem uptime_lifecycle_text_witness :
    uptimeText "starting" { memory := 0, cpu := 0, disk := 0, uptime := 999 } =
      capitalize "starting" ∧
    uptimeText "running" { memory := 0, cpu := 0, disk := 0, uptime := 5000 } =
      uptimeDuration (5000 / 1000) ∧
    uptimeText "running" { memory := 0, cpu := 0, disk := 0, uptime := 0 } = "Offline" :=
  ⟨(uptime_lifecycle_text "starting" _).1 (Or.inl rfl),
   (uptime_lifecycle_text "running" _).2.1 (by decide) (by decide) (by decide),
   (uptime_lifecycle_text "running" _).2.2 (by decide) (by decide) (by decide)⟩

/-- C2: when the status is `offline` the CPU and memory texts are the
literal `Offline` whatever the snapshot holds, while the disk text stays
the formatted snapshot value; for any other status the CPU and memory
texts are the numeric current/limit pair. -/
theorem offline_override_spec (s : Stats) (l : ResourceLimits) (a : List Allocation)
    (status : String) :
    (displayModel s l "offline" a).cpu = "Offline" ∧
    (displayModel s l "offline" a).memory = "Offline" ∧
    (displayModel s l status a).disk = bytesToString s.disk ∧
    (status ≠ "offline" →
      (displayModel s l status a).cpu = Limit (textLimits l).cpu (toFixed2 s.cpu ++ "%") ∧
      (displayModel s l status a).memory =
        Limit (textLimits l).memory (bytesToString s.memory)) := by
  refine ⟨by simp [displayModel, cpuText], by simp [displayModel, memoryText], rfl,
    fun h => ⟨?_, ?_⟩⟩
  · simp [displayModel, cpuText, h]
  · simp [displayModel, memoryText, h]

/-- Witness for `offline_override_spec` at concrete inputs. -/
theorem offline_override_spec_witness :
    (displayModel ⟨1, 2, 3, 4⟩ ⟨none, none, none⟩ "offline" []).cpu = "Offline" ∧
    (displayModel ⟨1, 2, 3, 4⟩ ⟨none, none, none⟩ "running" []).cpu =
      Limit (textLimits ⟨none, none, none⟩).cpu (toFixed2 2 ++ "%") :=
  ⟨(offline_override_spec ⟨1, 2, 3, 4⟩ ⟨none, none, none⟩ [] "running").1,
   ((offline_override_spec ⟨1, 2, 3, 4⟩ ⟨none, none, none⟩ [] "running").2.2.2
      (by decide)).1⟩

/-- C6: a zero or absent limit renders as the infinity placeholder and
never as the string `0`; a positive limit renders as the formatted limit
(percent for CPU, MB converted to a byte string for memory and disk). -/
theorem limit_text_spec (limits : ResourceLimits) :
    ((limits.cpu = none ∨ limits.cpu = some 0) →
      renderedLimit (textLimits limits).cpu = "∞" ∧
      renderedLimit (textLimits limits).cpu ≠ "0") ∧
    (∀ n, limits.cpu = some n → n ≠ 0 →
      renderedLimit (textLimits limits).cpu = toString n ++ "%") ∧
    ((limits.memory = none ∨ limits.memory = some 0) →
      renderedLimit (textLimits limits).memory = "∞" ∧
      renderedLimit (textLimits limits).memory ≠ "0") ∧
    (∀ n, limits.memory = some n → n ≠ 0 →
      renderedLimit (textLimits limits).memory = bytesToString (mbToBytes n)) ∧
    ((limits.disk = none ∨ limits.disk = some 0) →
      renderedLimit (textLimits limits).disk = "∞" ∧
      renderedLimit (textLimits limits).disk ≠ "0") ∧
    (∀ n, limits.disk = some n → n ≠ 0 →
      renderedLimit (textLimits limits).disk = bytesToString (mbToBytes n)) := by
  refine ⟨fun h => ?_, fun n hn hne => ?_, fun h => ?_, fun n hn hne => ?_,
    fun h => ?_, fun n hn hne => ?_⟩
  · have hnone : (textLimits limits).cpu = none := by
      rcases h with h | h <;> simp [textLimits, h]
    rw [hnone]; exact ⟨rfl, by decide⟩
  · have hsome : (textLimits limits).cpu = some (toString n ++ "%") := by
      simp [textLimits, hn, hne]
    rw [hsome]; exact renderedLimit_of_ne _ (append_ne_empty _ _ (by decide))
  · have hnone : (textLimits limits).memory = none := by
      rcases h with h | h <;> simp [textLimits, h]
    rw [hnone]; exact ⟨rfl, by decide⟩
  · have hsome : (textLimits limits).memory = some (bytesToString (mbToBytes n)) := by
      simp [textLimits, hn, hne]
    rw [hsome]; exact renderedLimit_of_ne _ (bytesToString_ne_empty _)
  · have hnone : (textLimits limits).disk = none := by
      rcases h with h | h <;> simp [textLimits, h]
    rw [hnone]; exact ⟨rfl, by decide⟩
  · have hsome : (textLimits limits).disk = some (bytesToString (mbToBytes n)) := by
      simp [textLimits, hn, hne]
    rw [hsome]; exact renderedLimit_of_ne _ (bytesToString_ne_empty _)

/-- Witness for `limit_text_spec` at concrete inputs. -/
theorem limit_text_spec_witness :
    renderedLimit (textLimits ⟨some 0, none, some 1024⟩).cpu = "∞" ∧
    renderedLimit (textLimits ⟨some 0, none, some 1024⟩).memory = "∞" ∧
    renderedLimit (textLimits ⟨some 0, none, some 1024⟩).disk =
      bytesToString (mbToBytes 1024) :=
  ⟨((limit_text_spec ⟨some 0, none, some 1024⟩).1 (Or.inr rfl)).1,
   ((limit_text_spec ⟨some 0, none, some 1024⟩).2.2.1 (Or.inl rfl)).1,
   (limit_text_spec ⟨some 0, none, some 1024⟩).2.2.2.2.2 1024 rfl (by decide)⟩

/-- C7 counterexample: an allocation whose `alias` field is present but
empty is rendered from its IP, not from the alias, so the address text is
not "the alias when present". The claim would render the alias, giving
`:25565`; the code gives `10.0.0.1:25565`. -/
theorem alias_empty_renders_ip_cex :
    allocation [{ ip := "10.0.0.1", port := 25565, «alias» := some "", isDefault := true }] =
      "10.0.0.1:25565" ∧
    ("10.0.0.1:25565" : String) ≠ ":25565" :=
  ⟨by decide, by decide⟩

/-- C7 amended: the address text comes from the first allocation whose
`isDefault` flag is true, rendered as the alias when the alias is present
and non-empty, otherwise as the IP, joined with a colon and the port; the
example list yields `play:25566`; with no default allocation the text is
the literal `n/a`. -/
theorem allocation_address_spec (l : List Allocation) (m : Allocation) :
    (l.find? (fun a => a.isDefault) = none → allocation l = "n/a") ∧
    (l.find? (fun a => a.isDefault) = some m →
      (∀ s, m.«alias» = some s → s ≠ "" →
        allocation l = s ++ ":" ++ toString m.port) ∧
      ((m.«alias» = none ∨ m.«alias» = some "") →
        allocation l = ip m.ip ++ ":" ++ toString m.port)) ∧
    allocation [{ ip := "10.0.0.1", port := 25565, «alias» := none, isDefault := false },
                { ip := "10.0.0.2", port := 25566, «alias» := some "play", isDefault := true }] =
      "play:25566" := by
  refine ⟨fun h => ?_, fun h => ⟨fun s hs hne => ?_, fun hcase => ?_⟩, by decide⟩
  · simp [allocation, h]
  · simp [allocation, h, aliasOrIp, hs, hne]
  · rcases hcase with hc | hc <;> simp [allocation, h, aliasOrIp, hc]

/-- Witness for `allocation_address_spec` at concrete inputs. -/
theorem allocation_address_spec_witness :
    allocation [{ ip := "10.0.0.9", port := 1025, «alias» := none, isDefault := true }] =
      ip "10.0.0.9" ++ ":" ++ toString 1025 ∧
    allocation [] = "n/a" :=
  ⟨((allocation_address_spec
      [{ ip := "10.0.0.9", port := 1025, «alias» := none, isDefault := true }]
      { ip := "10.0.0.9", port := 1025, «alias» := none, isDefault := true }).2.1
      (by decide)).2 (Or.inl rfl),
   (allocation_address_spec []
      { ip := "", port := 0, «alias» := none, isDefault := true }).1 rfl⟩

/-- C10: with more than one default allocation, the address comes from the
first one in array order (`Array.prototype.find`), and duplicate defaults
never yield a failure or the `n/a` placeholder. -/
theorem duplicate_defaults_first_wins (a : Allocation) (l rest : List Allocation) :
    (a.isDefault = true →
      allocation (a :: rest) = aliasOrIp a ++ ":" ++ toString a.port ∧
      allocation (a :: rest) ≠ "n/a") ∧
    (a.isDefault = false → allocation (a :: l) = allocation l) := by
  constructor
  · intro h
    have hfind : (a :: rest).find? (fun x => x.isDefault) = some a := by
      simp [List.find?, h]
    refine ⟨by simp [allocation, hfind], ?_⟩
    rw [show allocation (a :: rest) = aliasOrIp a ++ ":" ++ toString a.port by
      simp [allocation, hfind]]
    exact aliasOrIp_port_ne_na a
  · intro h
    have hfind : (a :: l).find? (fun x => x.isDefault) = l.find? (fun x => x.isDefault) := by
      simp [List.find?, h]
    simp [allocation, hfind]

/-- Witness for `duplicate_defaults_first_wins`: two defaults, the first
one wins and the result is not `n/a`. -/
theorem duplicate_defaults_first_wins_witness :
    allocation [{ ip := "10.0.0.2", port := 25566, «alias» := some "play", isDefault := true },
                { ip := "10.0.0.3", port := 25567, «alias» := none, isDefault := true }] =
      "play:25566" ∧
    allocation [{ ip := "10.0.0.2", port := 25566, «alias» := some "play", isDefault := true },
                { ip := "10.0.0.3", port := 25567, «alias» := none, isDefault := true }] ≠
      "n/a" := by
  have h := (duplicate_defaults_first_wins
    { ip := "10.0.0.2", port := 25566, «alias» := some "play", isDefault := true } []
    [{ ip := "10.0.0.3", port := 25567, «alias» := none, isDefault := true }]).1 rfl
  exact ⟨by rw [h.1]; rfl, h.2⟩

/-- C3: when `JSON.parse` throws on the inbound payload, the handler
returns from the `catch` without touching the state: the stored snapshot
is exactly the pre-event value and no error escapes. -/
theorem malformed_json_is_noop (prev : StoredStats) :
    statsEventHandler none prev = Except.ok prev := rfl

/-- C4 counterexample: the valid-JSON payload `5` is not a no-op. The
handler overwrites the whole snapshot with `undefined` members (and a
defaulted uptime of 0), so the stored snapshot differs from its pre-event
value. -/
theorem wrong_shape_not_noop_cex :
    statsEventHandler (some (JsValue.num 5)) initialStored =
      Except.ok { memory := none, cpu := none, disk := none
                  uptime := some (JsValue.num 0) } ∧
    statsEventHandler (some (JsValue.num 5)) initialStored ≠ Except.ok initialStored := by
  refine ⟨rfl, fun h => ?_⟩
  have h1 : (Except.ok (⟨none, none, none, some (JsValue.num 0)⟩ : StoredStats) :
      Except Unit StoredStats) = Except.ok initialStored := by
    rw [← h]; rfl
  have h2 := Except.ok.inj h1
  have h3 := congrArg StoredStats.memory h2
  simp [initialStored] at h3

/-- C4 corrected: only invalid JSON is a no-op. A payload that parses to
any value other than `null` is applied wholesale: each snapshot field
becomes the payload's corresponding member (`undefined` when the member is
missing or the payload is not an object), uptime defaults to 0, and the
previous snapshot does not survive; a `null` payload throws a `TypeError`
out of the handler. -/
theorem parsed_payload_always_applied (v : JsValue) (prev : StoredStats)
    (hv : v ≠ JsValue.null) :
    statsEventHandler (some v) prev =
      Except.ok { memory := member v "memory_bytes", cpu := member v "cpu_absolute",
                  disk := member v "disk_bytes",
                  uptime := some (jsOr (member v "uptime") (JsValue.num 0)) } ∧
    (∀ prev₂, statsEventHandler (some v) prev = statsEventHandler (some v) prev₂) ∧
    statsEventHandler (some JsValue.null) prev = Except.error () := by
  have hget : ∀ k, getField v k = Except.ok (member v k) := by
    intro k
    cases v
    · exact absurd rfl hv
    all_goals rfl
  exact ⟨by simp [statsEventHandler, hget], fun prev₂ => by simp [statsEventHandler, hget], rfl⟩

/-- Witness for `parsed_payload_always_applied`: the empty JSON object
overwrites every field of the initial snapshot. -/
theorem parsed_payload_always_applied_witness :
    statsEventHandler (some (JsValue.obj [])) initialStored =
      Except.ok { memory := none, cpu := none, disk := none
                  uptime := some (JsValue.num 0) } := by
  have h := (parsed_payload_always_applied (JsValue.obj []) initialStored
    (fun hc => JsValue.noConfusion hc)).1
  rw [h]; rfl

/-- C8: a payload of the documented wire shape replaces the stored
snapshot wholesale: all four fields come from `memory_bytes`,
`cpu_absolute`, `disk_bytes` and `uptime`, no field of the previous
snapshot survives (the result does not depend on the previous snapshot),
and the uptime field is 0 whenever the payload has no `uptime` member. -/
theorem snapshot_replaced_wholesale (v : JsValue) (prev prev₂ : StoredStats)
    (hw : isWireShape v = true) :
    statsEventHandler (some v) prev =
      Except.ok { memory := member v "memory_bytes", cpu := member v "cpu_absolute",
                  disk := member v "disk_bytes",
                  uptime := some (jsOr (member v "uptime") (JsValue.num 0)) } ∧
    statsEventHandler (some v) prev = statsEventHandler (some v) prev₂ ∧
    (member v "uptime" = none →
      statsEventHandler (some v) prev =
        Except.ok { memory := member v "memory_bytes", cpu := member v "cpu_absolute",
                    disk := member v "disk_bytes", uptime := some (JsValue.num 0) }) := by
  have hv : v ≠ JsValue.null := by
    cases v <;> simp_all [isWireShape]
  have hget : ∀ k, getField v k = Except.ok (member v k) := by
    intro k
    cases v
    · exact absurd rfl hv
    all_goals rfl
  refine ⟨by simp [statsEventHandler, hget], by simp [statsEventHandler, hget], fun hu => ?_⟩
  simp [statsEventHandler, hget, hu, jsOr]

/-- Witness for `snapshot_replaced_wholesale`: a concrete wire-shape
payload without an `uptime` member yields exactly its three numbers and a
zero uptime. -/
theorem snapshot_replaced_wholesale_witness :
    isWireShape (JsValue.obj [("memory_bytes", JsValue.num 1048576),
      ("cpu_absolute", JsValue.num 12), ("disk_bytes", JsValue.num 2000000000)]) = true ∧
    statsEventHandler (some (JsValue.obj [("memory_bytes", JsValue.num 1048576),
      ("cpu_absolute", JsValue.num 12), ("disk_bytes", JsValue.num 2000000000)]))
      initialStored =
      Except.ok { memory := some (JsValue.num 1048576), cpu := some (JsValue.num 12),
                  disk := some (JsValue.num 2000000000)
                  uptime := some (JsValue.num 0) } := by
  refine ⟨by decide, ?_⟩
  have h := (snapshot_replaced_wholesale
    (JsValue.obj [("memory_bytes", JsValue.num 1048576), ("cpu_absolute", JsValue.num 12),
      ("disk_bytes", JsValue.num 2000000000)]) initialStored initialStored (by decide)).2.2 rfl
  rw [h]; rfl

/-- C9: the displayed view is a deterministic pure function of the four
inputs (snapshot, limits, status, allocations): equal inputs give an
identical display, and before the first stats message the snapshot is the
all-zero snapshot with uptime 0. -/
theorem display_model_pure (s₁ s₂ : Stats) (l₁ l₂ : ResourceLimits) (st₁ st₂ : String)
    (a₁ a₂ : List Allocation) (hs : s₁ = s₂) (hl : l₁ = l₂) (hst : st₁ = st₂)
    (ha : a₁ = a₂) :
    displayModel s₁ l₁ st₁ a₁ = displayModel s₂ l₂ st₂ a₂ ∧
    initialStats = { memory := 0, cpu := 0, disk := 0, uptime := 0 } := by
  subst hs hl hst ha
  exact ⟨rfl, rfl⟩

/-- Witness for `display_model_pure` at concrete inputs. -/
theorem display_model_pure_witness :
    displayModel initialStats ⟨some 1, none, none⟩ "running" [] =
      displayModel initialStats ⟨some 1, none, none⟩ "running" [] ∧
    initialStats = { memory := 0, cpu := 0, disk := 0, uptime := 0 } :=
  display_model_pure _ _ _ _ _ _ _ _ rfl rfl rfl rfl

theorem sendFlags_eq_connectFlags (hist : List DepState) :
    ∀ prev, stableInstance prev hist = true → sendFlags prev hist = connectFlags prev hist := by
  induction hist with
  | nil => intro prev _; rfl
  | cons s rest ih =>
    intro prev hstable
    simp only [stableInstance, Bool.and_eq_true] at hstable
    obtain ⟨hhead, htail⟩ := hstable
    simp only [sendFlags, connectFlags]
    rw [ih (some s) htail]
    congr 1
    cases prev with
    | none => simp [effectRuns, prevConn]
    | some p =>
      cases hc : isConn s with
      | false => simp [hc]
      | true =>
        cases hp : isConn p with
        | false =>
          have hps : p ≠ s := fun he => by rw [he, hc] at hp; exact Bool.noConfusion hp
          simp [effectRuns, prevConn, hp, hc, hps]
        | true =>
          have hps : p = s := by
            simp only [hp, hc, Bool.and_self, Bool.not_true, Bool.false_or,
              decide_eq_true_eq] at hhead
            exact hhead
          simp [effectRuns, prevConn, hps, hp, hc]

/-- C5: with the socket instance stable across consecutive connected
renders (it only changes identity through a disconnection), the effect
sends exactly one stats request per transition into the connected state,
render by render: the per-render send flags coincide with the per-render
connect-transition flags; and a send can only ever happen in a state that
is connected with an established instance. -/
theorem stats_request_per_connect (hist : List DepState)
    (hstable : stableInstance none hist = true) :
    sendFlags none hist = connectFlags none hist ∧
    (∀ prev s, (effectRuns prev s && isConn s) = true →
      s.1 = true ∧ s.2.isSome = true) := by
  refine ⟨sendFlags_eq_connectFlags hist none hstable, fun prev s h => ?_⟩
  have h2 := ((Bool.and_eq_true _ _).mp h).2
  simpa [isConn, Bool.and_eq_true] using h2

/-- Witness for `stats_request_per_connect`: a mount, a connect, a
disconnect and a reconnect with a fresh instance produce sends exactly at
the two connect transitions. -/
theorem stats_request_per_connect_witness :
    stableInstance none [(false, none), (true, some 0), (false, some 0), (true, some 1)] =
      true ∧
    sendFlags none [(false, none), (true, some 0), (false, some 0), (true, some 1)] =
      connectFlags none [(false, none), (true, some 0), (false, some 0), (true, some 1)] :=
  ⟨by decide,
   (stats_request_per_connect
     [(false, none), (true, some 0), (false, some 0), (true, some 1)] (by decide)).1⟩
